import Mathlib

/-!
Shallow embedding of the terminal adventure game from
`Function/functions_demo/adventure_game.py` and
`Function/functions_demo/key_actions.py`, with proofs about the grid
generator, the action executors, the input mapper, and the reachable game
states.

Python integers are unbounded, so they are embedded as `Int` (coordinates
and counters) or `Nat` (sizes).  Python list indexing accepts negative
indices (meaning `length + i`) and raises `IndexError` out of range; it is
embedded as `Option`-valued access where `none` models the raised
exception.  The process-wide random source is embedded as an explicit
argument: a function giving the weighted `random_item()` draw for each grid
position, and the six `random.randint` results used for the forced
vendor / cave / treasure placements.
-/

abbrev Cell := Char

abbrev Grid := List (List Cell)

/-- Python index resolution for a sequence of length `n`: a non-negative
index must be `< n`, a negative index `i` means `n + i`, and anything else
raises `IndexError` (modelled as `none`). -/
def pyIdx (n : Nat) (i : Int) : Option Nat :=
  if 0 ≤ i ∧ i < (n : Int) then some i.toNat
  else if -(n : Int) ≤ i ∧ i < 0 then some (i + (n : Int)).toNat
  else none

/-- Python `l[i]` (read). -/
def pyGet {α : Type} (l : List α) (i : Int) : Option α :=
  (pyIdx l.length i).bind (fun j => l[j]?)

/-- Python `l[i] = a` (write), returning the updated list. -/
def pySet {α : Type} (l : List α) (i : Int) (a : α) : Option (List α) :=
  (pyIdx l.length i).map (fun j => l.set j a)

/-- Python `grid[y][x]`. -/
def cellAt (grid : Grid) (y x : Int) : Option Cell :=
  (pyGet grid y).bind (fun row => pyGet row x)

/-- Player record, mirroring the attributes set by `Player.__init__`
(adventure_game.py lines 274-283); `special` is the attribute injected
through `__dict__`. -/
structure Player where
  name : String
  x : Int
  y : Int
  inventory : List String
  hp : Int
  treasures : Int
  moves : Int
  vendor_deals : Int
  special : String
deriving DecidableEq

/-- Python `Player(name)`: position (0,0), empty inventory, hp 10, all
counters zero. -/
def Player.make (name : String) : Player :=
  { name := name, x := 0, y := 0, inventory := [], hp := 10,
    treasures := 0, moves := 0, vendor_deals := 0, special := "Adventurer" }

/-- adventure_game.py lines 42-45: despite its name, deterministic. -/
def random_map_size : Nat × Nat := (20, 20)

/-- The population of `random.choices` inside `random_item`
(adventure_game.py lines 48-54). -/
def item_population : List Cell := [' ', '#', 'T', 'V', 'C', 'M', 'P', 'N']

/-- The weights of `random.choices` inside `random_item`; every symbol of
the population has positive weight, so every symbol can be drawn at every
position. -/
def item_weights : List Nat := [200, 10, 5, 2, 2, 5, 7, 1]

/-- One outcome of the random source consumed by `generate_procedural_map`:
`item y x` is the `random_item()` draw for row `y`, column `x`, and the six
numbers are the `random.randint(0, width-1)` / `random.randint(0, height-1)`
results for the three forced placements (so a faithful outcome has them
`< 20` and every `item y x` in `item_population`). -/
structure RandGen where
  item : Nat → Nat → Cell
  vendor_x : Nat
  vendor_y : Nat
  cave_x : Nat
  cave_y : Nat
  treasure_x : Nat
  treasure_y : Nat

/-- Python `grid[y][x] = c` for `Nat` indices; the forced placements are
drawn by `randint` inside the grid bounds, which theorems assume where it
matters. -/
def setCell (grid : Grid) (y x : Nat) (c : Cell) : Grid :=
  grid.set y ((grid.getD y []).set x c)

/-- adventure_game.py lines 57-69: weighted-random base grid, then the
vendor, cave and treasure forced placements, in that order. -/
def generate_procedural_map (r : RandGen) : Grid × Nat × Nat :=
  let width := random_map_size.1
  let height := random_map_size.2
  let grid : Grid :=
    (List.range height).map (fun y => (List.range width).map (fun x => r.item y x))
  let grid1 := setCell grid r.vendor_y r.vendor_x 'V'
  let grid2 := setCell grid1 r.cave_y r.cave_x 'C'
  let grid3 := setCell grid2 r.treasure_y r.treasure_x 'T'
  (grid3, width, height)

/-- adventure_game.py line 104; unused by the grid generator. -/
def MAP_WIDTH : Nat := 10

/-- adventure_game.py line 105; unused by the grid generator. -/
def MAP_HEIGHT : Nat := 7

/-- adventure_game.py lines 205-214.  `none` models the `IndexError`
Python would raise (possible only for an empty or ragged grid: the bounds
test short-circuits before `grid[ny][nx]` otherwise).  The grid is only
read, never written, so it is not returned. -/
def move_player (player : Player) (grid : Grid) (dx dy : Int) : Option Player :=
  match pyGet grid 0 with
  | none => none
  | some row0 =>
    if 0 ≤ player.x + dx ∧ player.x + dx < (row0.length : Int) ∧
        0 ≤ player.y + dy ∧ player.y + dy < (grid.length : Int) then
      match pyGet grid (player.y + dy) with
      | none => none
      | some row =>
        match pyGet row (player.x + dx) with
        | none => none
        | some cell =>
          if cell ≠ '#' then
            some { player with x := player.x + dx, y := player.y + dy,
                               moves := player.moves + 1 }
          else
            some player
    else
      some player

/-- adventure_game.py lines 218-226: on a treasure cell append to the
inventory, bump the counter and clear the cell; otherwise only print. -/
def pick_up (player : Player) (grid : Grid) : Option (Player × Grid) :=
  match pyGet grid player.y with
  | none => none
  | some row =>
    match pyGet row player.x with
    | none => none
    | some cell =>
      if cell = 'T' then
        match pySet row player.x ' ' with
        | none => none
        | some row2 =>
          match pySet grid player.y row2 with
          | none => none
          | some grid2 =>
            some ({ player with
                      inventory := player.inventory ++ ["Treasure"],
                      treasures := player.treasures + 1 }, grid2)
      else
        some (player, grid)

/-- adventure_game.py lines 229-232: the body only prints. -/
def hit (player : Player) (grid : Grid) : Player × Grid :=
  (player, grid)

/-- adventure_game.py lines 236-260: on a vendor or cave cell the whole map
is regenerated (consuming fresh randomness `r`) and the player is reset to
the origin; every other cell only triggers a printed message. -/
def enter (r : RandGen) (player : Player) (grid : Grid) : Option (Player × Grid) :=
  match pyGet grid player.y with
  | none => none
  | some row =>
    match pyGet row player.x with
    | none => none
    | some cell =>
      if cell = 'V' ∨ cell = 'C' then
        some ({ player with x := 0, y := 0 }, (generate_procedural_map r).1)
      else
        some (player, grid)

/-- Tagged payload of the pair returned by `handle_key`. -/
inductive Payload where
  | dir (dx dy : Int)
  | msg (s : String)
  | nil
deriving DecidableEq

/-- key_actions.py lines 3-44.  The cell lookup `grid[player.y][player.x]`
on line 4 happens before any key is examined, so it can raise (`none`) for
every key, recognized or not. -/
def handle_key (key : String) (player : Player) (grid : Grid) :
    Option (String × Payload) :=
  match cellAt grid player.y player.x with
  | none => none
  | some cell =>
    if key = "w" ∨ key = "\x1b[A" then some ("move", Payload.dir 0 (-1))
    else if key = "s" ∨ key = "\x1b[B" then some ("move", Payload.dir 0 1)
    else if key = "a" ∨ key = "\x1b[D" then some ("move", Payload.dir (-1) 0)
    else if key = "d" ∨ key = "\x1b[C" then some ("move", Payload.dir 1 0)
    else if key = "p" then
      if cell = 'T' then some ("pick_up", Payload.nil)
      else if cell = 'P' then some ("pick_up_potion", Payload.nil)
      else some ("info", Payload.msg ("Nothing to pick up here."))
    else if key = "h" then
      if cell = 'M' then some ("hit", Payload.nil)
      else some ("info", Payload.msg ("Nothing to hit here."))
    else if key = "e" then
      if cell = 'V' ∨ cell = 'C' ∨ cell = 'N' ∨ cell = 'M' ∨ cell = 'P' ∨
          cell = 'T' ∨ cell = '#' then
        some ("enter", Payload.nil)
      else some ("info", Payload.msg ("Nothing to interact with here."))
    else if key = "t" then
      if cell = 'N' ∨ cell = 'V' then some ("talk", Payload.nil)
      else some ("info", Payload.msg ("No one to talk/trade with here."))
    else if key = "o" then
      if cell = '#' then some ("open", Payload.nil)
      else some ("info", Payload.msg ("No door or secret here."))
    else if key = "q" then some ("quit", Payload.nil)
    else some ("info", Payload.msg ("Unknown key."))

/-- The keys `handle_key` dispatches on (movement keys and arrow escape
sequences, plus p, h, e, t, o, q). -/
def recognized_keys : List String :=
  ["w", "\x1b[A", "s", "\x1b[B", "a", "\x1b[D", "d", "\x1b[C",
   "p", "h", "e", "t", "o", "q"]

abbrev GameState := Player × Grid

/-- The state-mutating dispatches of the main loop (adventure_game.py lines
304-317); `enterAct` carries the random outcome consumed if the map is
regenerated. -/
inductive Act where
  | move (dx dy : Int)
  | pickUp
  | hitAct
  | enterAct (r : RandGen)

/-- One executor dispatch of the main loop. -/
def stepGame : GameState → Act → Option GameState
  | (p, g), Act.move dx dy => (move_player p g dx dy).map (fun q => (q, g))
  | (p, g), Act.pickUp => pick_up p g
  | (p, g), Act.hitAct => some (hit p g)
  | (p, g), Act.enterAct r => enter r p g

/-- The state at game start (adventure_game.py lines 291-294): a freshly
generated grid and a fresh player at the origin. -/
def initState (name : String) (r : RandGen) : GameState :=
  (Player.make name, (generate_procedural_map r).1)

/-- States reachable from some game start by executor actions. -/
inductive Reachable : GameState → Prop where
  | start : ∀ name r, Reachable (initState name r)
  | step : ∀ s a t, Reachable s → stepGame s a = some t → Reachable t

/-- Modelled from the spec: the vendor trade ("exchange one treasure for
one potion, increments deal count"; "trade with treasures=0 → trade
refused, inventory unchanged").  The executor for the `talk` action of
key_actions.py is not present under `src/`: in adventure_game.py entering
a vendor cell regenerates the map instead, and the main loop never
dispatches the `t` key. -/
def vendor_trade (p : Player) : Player × Bool :=
  if 1 ≤ p.treasures then
    ({ p with treasures := p.treasures - 1,
              inventory := p.inventory ++ ["Potion"],
              vendor_deals := p.vendor_deals + 1 }, true)
  else
    (p, false)

/-- Modelled from the spec: the arithmetic-puzzle cave encounter ("puzzle
with a single guess", "answer correctly → treasures=1, hit-points=10;
answer incorrectly → treasures=0, hit-points=10").  The cave-encounter
implementation is not present under `src/`: in adventure_game.py entering
a cave regenerates the map instead. -/
def puzzle_cave (p : Player) (correct : Bool) : Player :=
  if correct then { p with treasures := p.treasures + 1 } else p

/-- Combined inductive invariant of the reachable states: the grid is
20 rows of 20 cells, the player's coordinates lie in `[0, 20)`, and the
hit-points are 10. -/
def StateInv (s : GameState) : Prop :=
  s.2.length = 20 ∧ (∀ row ∈ s.2, row.length = 20) ∧
  0 ≤ s.1.x ∧ s.1.x < 20 ∧ 0 ≤ s.1.y ∧ s.1.y < 20 ∧ s.1.hp = 10

/-- A random outcome whose cave placement lands on the vendor placement:
every weighted draw comes out empty (weight 200), all six `randint` results
are in `[0, 19]`. -/
def rOverwrite : RandGen :=
  { item := fun _ _ => ' ', vendor_x := 0, vendor_y := 0,
    cave_x := 0, cave_y := 0, treasure_x := 1, treasure_y := 1 }

/-- A random outcome whose weighted draws are all walls (weight 10), with
forced placements away from the origin: cell (0,0) of the generated grid
is a wall. -/
def rWall : RandGen :=
  { item := fun _ _ => '#', vendor_x := 5, vendor_y := 5,
    cave_x := 6, cave_y := 6, treasure_x := 7, treasure_y := 7 }

/-- Concrete 2x2 grid with a wall at (1,1), for witnesses. -/
def gW : Grid := [[' ', ' '], [' ', '#']]

/-- Concrete player at the origin of `gW`. -/
def pW : Player := Player.make ("wit")

/-- Concrete 1x1 grid holding a treasure. -/
def gT : Grid := [['T']]

/-- Concrete player at the origin of `gT`. -/
def pT : Player := Player.make ("tre")

/-- Concrete 1x1 grid holding a vendor. -/
def gV : Grid := [['V']]

/-- Concrete player on the vendor cell with no treasure. -/
def pV0 : Player := Player.make ("ven")

/-- Concrete player on the vendor cell with one treasure. -/
def pV1 : Player := { Player.make ("ven") with treasures := 1 }

/-- Concrete 1x1 grid with an empty cell. -/
def gOne : Grid := [[' ']]

/-- Concrete player at the origin of `gOne`. -/
def pZ : Player := Player.make ("zed")

/-- Concrete player whose position (0,5) is outside `gOne`. -/
def pOut : Player := { Player.make ("out") with y := 5 }

theorem pyIdx_lt {n : Nat} {i : Int} {j : Nat} (h : pyIdx n i = some j) : j < n := by
  unfold pyIdx at h
  split at h
  · next h1 =>
    injection h with h2
    omega
  · split at h
    · next h1 =>
      injection h with h2
      omega
    · exact absurd h (by simp)

theorem pyIdx_of_nonneg {n : Nat} {i : Int} (h0 : 0 ≤ i) (h1 : i < (n : Int)) :
    pyIdx n i = some i.toNat := by
  unfold pyIdx
  rw [if_pos ⟨h0, h1⟩]

theorem pyGet_mem {α : Type} {l : List α} {i : Int} {a : α}
    (h : pyGet l i = some a) : a ∈ l := by
  unfold pyGet at h
  rcases Option.bind_eq_some.1 h with ⟨j, _, hget⟩
  exact List.getElem?_mem hget

theorem pySet_length {α : Type} {l l2 : List α} {i : Int} {a : α}
    (h : pySet l i a = some l2) : l2.length = l.length := by
  unfold pySet at h
  rcases Option.map_eq_some'.1 h with ⟨j, _, hl2⟩
  subst hl2
  exact List.length_set ..

theorem pySet_mem {α : Type} {l l2 : List α} {i : Int} {a b : α}
    (h : pySet l i a = some l2) (hb : b ∈ l2) : b ∈ l ∨ b = a := by
  unfold pySet at h
  rcases Option.map_eq_some'.1 h with ⟨j, _, hl2⟩
  subst hl2
  exact List.mem_or_eq_of_mem_set hb

theorem pySet_of_pyGet {α : Type} {l : List α} {i : Int} {a : α}
    (h : pyGet l i = some a) (b : α) :
    ∃ l2, pySet l i b = some l2 ∧ pyGet l2 i = some b ∧ l2.length = l.length := by
  unfold pyGet at h
  rcases Option.bind_eq_some.1 h with ⟨j, hj, _⟩
  have hjlt : j < l.length := pyIdx_lt hj
  refine ⟨l.set j b, ?_, ?_, List.length_set ..⟩
  · unfold pySet
    rw [hj]
    rfl
  · unfold pyGet
    rw [List.length_set, hj]
    simp only [Option.some_bind]
    exact List.getElem?_set_eq_of_lt b hjlt

theorem getD_mem_of_lt {α : Type} {l : List α} {i : Nat} (h : i < l.length) (d : α) :
    l.getD i d ∈ l := by
  rw [List.getD_eq_getElem?_getD, List.getElem?_eq_getElem h]
  simp only [Option.getD_some]
  exact List.getElem_mem h

theorem setCell_length (g : Grid) (y x : Nat) (c : Cell) :
    (setCell g y x c).length = g.length :=
  List.length_set ..

theorem setCell_rows {g : Grid} {n : Nat} (h : ∀ row ∈ g, row.length = n)
    (y x : Nat) (c : Cell) : ∀ row ∈ setCell g y x c, row.length = n := by
  unfold setCell
  by_cases hy : y < g.length
  · intro row hrow
    rcases List.mem_or_eq_of_mem_set hrow with h1 | h1
    · exact h row h1
    · subst h1
      rw [List.length_set]
      exact h _ (getD_mem_of_lt hy [])
  · intro row hrow
    rw [List.set_eq_of_length_le (Nat.le_of_not_lt hy)] at hrow
    exact h row hrow

theorem generate_length (r : RandGen) :
    (generate_procedural_map r).1.length = 20 := by
  simp [generate_procedural_map, setCell_length, random_map_size]

theorem generate_rows (r : RandGen) :
    ∀ row ∈ (generate_procedural_map r).1, row.length = 20 := by
  have hbase : ∀ row ∈ (List.range 20).map
      (fun y => (List.range 20).map (fun x => r.item y x)), row.length = 20 := by
    intro row hrow
    rcases List.mem_map.1 hrow with ⟨y, _, hrw⟩
    subst hrw
    simp
  unfold generate_procedural_map random_map_size
  exact setCell_rows (setCell_rows (setCell_rows hbase _ _ _) _ _ _) _ _ _

theorem initState_inv (name : String) (r : RandGen) : StateInv (initState name r) :=
  ⟨generate_length r, generate_rows r, le_refl 0, by norm_num [initState, Player.make],
   le_refl 0, by norm_num [initState, Player.make], rfl⟩

theorem stepGame_inv {s t : GameState} {a : Act} (hs : StateInv s)
    (hstep : stepGame s a = some t) : StateInv t := by
  obtain ⟨p, g⟩ := s
  obtain ⟨hlen, hrows, hx0, hx, hy0, hy, hhp⟩ := hs
  cases a with
  | move dx dy =>
    simp only [stepGame, Option.map_eq_some'] at hstep
    rcases hstep with ⟨q, hq, ht⟩
    subst ht
    unfold move_player at hq
    split at hq
    · exact absurd hq (by simp)
    · next row0 h0 =>
      split at hq
      · next hb =>
        split at hq
        · exact absurd hq (by simp)
        · next row h1 =>
          split at hq
          · exact absurd hq (by simp)
          · next cell h2 =>
            split at hq
            · next hc =>
              injection hq with hq
              subst hq
              have hrow0 : row0.length = 20 := hrows row0 (pyGet_mem h0)
              obtain ⟨ha1, ha2, ha3, ha4⟩ := hb
              rw [hrow0] at ha2
              rw [hlen] at ha4
              exact ⟨hlen, hrows, ha1, by exact_mod_cast ha2, ha3,
                by exact_mod_cast ha4, hhp⟩
            · injection hq with hq
              subst hq
              exact ⟨hlen, hrows, hx0, hx, hy0, hy, hhp⟩
      · injection hq with hq
        subst hq
        exact ⟨hlen, hrows, hx0, hx, hy0, hy, hhp⟩
  | pickUp =>
    simp only [stepGame] at hstep
    unfold pick_up at hstep
    split at hstep
    · exact absurd hstep (by simp)
    · next row h1 =>
      split at hstep
      · exact absurd hstep (by simp)
      · next cell h2 =>
        split at hstep
        · next hc =>
          split at hstep
          · exact absurd hstep (by simp)
          · next row2 h3 =>
            split at hstep
            · exact absurd hstep (by simp)
            · next grid2 h4 =>
              injection hstep with hstep
              subst hstep
              have hl2 : grid2.length = 20 := by rw [pySet_length h4, hlen]
              have hr2 : ∀ rr ∈ grid2, rr.length = 20 := by
                intro rr hrr
                rcases pySet_mem h4 hrr with hmem | heq
                · exact hrows rr hmem
                · subst heq
                  rw [pySet_length h3]
                  exact hrows row (pyGet_mem h1)
              exact ⟨hl2, hr2, hx0, hx, hy0, hy, hhp⟩
        · injection hstep with hstep
          subst hstep
          exact ⟨hlen, hrows, hx0, hx, hy0, hy, hhp⟩
  | hitAct =>
    simp only [stepGame, hit, Option.some_inj] at hstep
    subst hstep
    exact ⟨hlen, hrows, hx0, hx, hy0, hy, hhp⟩
  | enterAct r =>
    simp only [stepGame] at hstep
    unfold enter at hstep
    split at hstep
    · exact absurd hstep (by simp)
    · next row h1 =>
      split at hstep
      · exact absurd hstep (by simp)
      · next cell h2 =>
        split at hstep
        · next hc =>
          injection hstep with hstep
          subst hstep
          exact ⟨generate_length r, generate_rows r, le_refl 0, by norm_num,
            le_refl 0, by norm_num, hhp⟩
        · injection hstep with hstep
          subst hstep
          exact ⟨hlen, hrows, hx0, hx, hy0, hy, hhp⟩

theorem reachable_inv {s : GameState} (h : Reachable s) : StateInv s := by
  induction h with
  | start name r => exact initState_inv name r
  | step s a t _ hstep ih => exact stepGame_inv ih hstep

/-- C1. The claim asserts every generated grid holds at least one vendor,
one cave and one treasure, for every random outcome.  The forced placements
run vendor first, then cave, then treasure; when the cave draw lands on the
vendor draw and no weighted draw produced a vendor, the returned grid holds
no vendor at all, contradicting the source comment "Ensure at least one
vendor, cave, and treasure".  This theorem evaluates the generator at such
an outcome: all draws valid (draws in the population, placements within
`randint(0, 19)` range), yet no cell of the result is a vendor. -/
theorem c1_forced_vendor_can_vanish :
    (∀ y x, rOverwrite.item y x ∈ item_population) ∧
    rOverwrite.vendor_x < 20 ∧ rOverwrite.vendor_y < 20 ∧
    rOverwrite.cave_x < 20 ∧ rOverwrite.cave_y < 20 ∧
    rOverwrite.treasure_x < 20 ∧ rOverwrite.treasure_y < 20 ∧
    ((generate_procedural_map rOverwrite).1.all
      (fun row => row.all (fun c => c != 'V'))) = true := by
  refine ⟨?_, by decide, by decide, by decide, by decide, by decide,
    by decide, by decide⟩
  intro y x
  show ' ' ∈ item_population
  decide

/-- C2 counterexample: the invariant "the player's position is an in-bounds
non-wall cell" fails in a reachable state.  With every weighted draw a wall
and the forced placements away from the origin, the initial state puts the
player at (0,0) on a wall cell. -/
theorem c2_initial_position_on_wall :
    Reachable (initState ("ada") rWall) ∧
    cellAt (initState ("ada") rWall).2 (initState ("ada") rWall).1.y
      (initState ("ada") rWall).1.x = some '#' :=
  ⟨Reachable.start ("ada") rWall, by decide⟩

/-- C2 (amended): in every reachable game state — after player creation and
any sequence of move, pick-up, hit and enter actions — the player's
position (x,y) is an in-bounds cell of the current grid (0 ≤ x < row
width, 0 ≤ y < number of rows).  The non-wall half of the original claim
holds for the cell a successful move lands on, but not for the initial
position (0,0) nor the (0,0) assigned after checkpoint regeneration, which
may be wall cells. -/
theorem c2_position_in_bounds {s : GameState} (h : Reachable s) :
    0 ≤ s.1.x ∧ s.1.x < ((s.2.headD []).length : Int) ∧
    0 ≤ s.1.y ∧ s.1.y < (s.2.length : Int) := by
  obtain ⟨hlen, hrows, hx0, hx, hy0, hy, _⟩ := reachable_inv h
  have hne : s.2 ≠ [] := by
    intro he
    rw [he] at hlen
    simp at hlen
  rcases List.exists_cons_of_ne_nil hne with ⟨r0, rs, hcons⟩
  have hhead : (s.2.headD []).length = 20 := by
    rw [hcons, List.headD_cons]
    exact hrows r0 (by rw [hcons]; exact List.mem_cons_self r0 rs)
  rw [hhead, hlen]
  exact ⟨hx0, by exact_mod_cast hx, hy0, by exact_mod_cast hy⟩

/-- C2 witness: the amended in-bounds invariant evaluated at a concrete
reachable state. -/
theorem c2_position_in_bounds_witness :
    0 ≤ (initState ("ada") rWall).1.x ∧
    (initState ("ada") rWall).1.x <
      (((initState ("ada") rWall).2.headD []).length : Int) ∧
    0 ≤ (initState ("ada") rWall).1.y ∧
    (initState ("ada") rWall).1.y < ((initState ("ada") rWall).2.length : Int) :=
  c2_position_in_bounds (Reachable.start ("ada") rWall)

/-- C9: the player's hit-points are initialized to 10 by `Player.__init__`
and no executor (move_player, pick_up, hit, enter) writes them, so every
reachable state has hp = 10 and the fatal hp-reaching-0 condition is
unreachable. -/
theorem c9_hp_constant (name : String) {s : GameState} (hs : Reachable s) :
    (Player.make name).hp = 10 ∧ s.1.hp = 10 ∧ s.1.hp ≠ 0 := by
  obtain ⟨_, _, _, _, _, _, hhp⟩ := reachable_inv hs
  refine ⟨rfl, hhp, ?_⟩
  rw [hhp]
  norm_num

/-- C9 witness: the hp invariant evaluated at a concrete reachable state. -/
theorem c9_hp_constant_witness :
    (Player.make ("bob")).hp = 10 ∧ (initState ("bob") rOverwrite).1.hp = 10 ∧
    (initState ("bob") rOverwrite).1.hp ≠ 0 :=
  c9_hp_constant ("bob") (Reachable.start ("bob") rOverwrite)

/-- C10: `random_map_size` deterministically returns (20, 20); every grid
returned by `generate_procedural_map` — also at checkpoint regeneration,
which calls the same function — has exactly 20 rows of exactly 20 cells;
and the module constants MAP_WIDTH = 10 and MAP_HEIGHT = 7 play no part in
grid construction (the generator is defined without them and its dimensions
differ from both). -/
theorem c10_grid_dimensions (r : RandGen) :
    random_map_size = (20, 20) ∧ MAP_WIDTH = 10 ∧ MAP_HEIGHT = 7 ∧
    (generate_procedural_map r).2 = (20, 20) ∧
    (generate_procedural_map r).1.length = 20 ∧
    ((generate_procedural_map r).1.all (fun row => row.length == 20)) = true ∧
    (generate_procedural_map r).1.length ≠ MAP_HEIGHT ∧
    ((generate_procedural_map r).1.headD []).length ≠ MAP_WIDTH := by
  have hrows := generate_rows r
  have hlen := generate_length r
  have hne : (generate_procedural_map r).1 ≠ [] := by
    intro he
    rw [he] at hlen
    simp at hlen
  rcases List.exists_cons_of_ne_nil hne with ⟨r0, rs, hcons⟩
  have hhead : ((generate_procedural_map r).1.headD []).length = 20 := by
    rw [hcons, List.headD_cons]
    exact hrows r0 (by rw [hcons]; exact List.mem_cons_self r0 rs)
  refine ⟨rfl, rfl, rfl, rfl, hlen, ?_, ?_, ?_⟩
  · rw [List.all_eq_true]
    intro row hrow
    simpa using hrows row hrow
  · rw [hlen]
    norm_num [MAP_HEIGHT]
  · rw [hhead]
    norm_num [MAP_WIDTH]

/-- C3: for every player, grid and displacement (dx,dy), writing nx = x+dx
and ny = y+dy for the candidate: if the candidate is in-bounds (against the
width of row 0 and the number of rows, as the source computes them) and the
target cell is not a wall, `move_player` returns the player with position
exactly (nx,ny) and move count incremented by exactly 1 and every other
field untouched; if the target cell is a wall, or the candidate is
out-of-bounds, it returns the player completely unchanged.  The grid is
never written by `move_player` (its embedding does not even return it). -/
theorem c3_move_player_spec (p : Player) (g : Grid) (dx dy : Int)
    (row0 : List Cell) (h0 : pyGet g 0 = some row0) :
    ((0 ≤ p.x + dx ∧ p.x + dx < (row0.length : Int) ∧
      0 ≤ p.y + dy ∧ p.y + dy < (g.length : Int)) →
      ∀ row cell, pyGet g (p.y + dy) = some row →
        pyGet row (p.x + dx) = some cell →
        ((cell ≠ '#' →
          move_player p g dx dy =
            some { p with x := p.x + dx, y := p.y + dy,
                          moves := p.moves + 1 }) ∧
         (cell = '#' → move_player p g dx dy = some p))) ∧
    (¬ (0 ≤ p.x + dx ∧ p.x + dx < (row0.length : Int) ∧
        0 ≤ p.y + dy ∧ p.y + dy < (g.length : Int)) →
      move_player p g dx dy = some p) := by
  constructor
  · intro hb row cell h1 h2
    constructor
    · intro hc
      unfold move_player
      rw [h0]
      dsimp only
      rw [if_pos hb, h1]
      dsimp only
      rw [h2]
      dsimp only
      rw [if_pos hc]
    · intro hc
      unfold move_player
      rw [h0]
      dsimp only
      rw [if_pos hb, h1]
      dsimp only
      rw [h2]
      dsimp only
      rw [if_neg (by simp [hc])]
  · intro hb
    unfold move_player
    rw [h0]
    dsimp only
    rw [if_neg hb]

/-- C3 witness: a successful move, a wall-blocked move and an out-of-bounds
move on a concrete 2x2 grid. -/
theorem c3_move_player_spec_witness :
    move_player pW gW 1 0 = some { pW with x := 1, y := 0, moves := 1 } ∧
    move_player pW gW 1 1 = some pW ∧
    move_player pW gW 0 (-1) = some pW := by
  refine ⟨?_, ?_, ?_⟩
  · exact ((c3_move_player_spec pW gW 1 0 ([' ', ' ']) (by decide)).1 (by decide)
      ([' ', ' ']) ' ' (by decide) (by decide)).1 (by decide)
  · exact ((c3_move_player_spec pW gW 1 1 ([' ', ' ']) (by decide)).1 (by decide)
      ([' ', '#']) '#' (by decide) (by decide)).2 (by decide)
  · exact (c3_move_player_spec pW gW 0 (-1) ([' ', ' ']) (by decide)).2 (by decide)

/-- C4: for every player and grid, with `cell` the cell at the player's
position: if it is a treasure, `pick_up` appends exactly one item to the
inventory, increments the treasure count by exactly 1 and clears the cell
to ' ', and invoking `pick_up` again on the resulting state is a no-op on
player and grid; if it is not a treasure, `pick_up` leaves player and grid
unchanged. -/
theorem c4_pick_up_spec (p : Player) (g : Grid) (row : List Cell)
    (cell : Cell) (hrow : pyGet g p.y = some row)
    (hcell : pyGet row p.x = some cell) :
    (cell = 'T' →
      ∃ g2, pick_up p g =
          some ({ p with inventory := p.inventory ++ ["Treasure"],
                         treasures := p.treasures + 1 }, g2) ∧
        cellAt g2 p.y p.x = some ' ' ∧
        pick_up { p with inventory := p.inventory ++ ["Treasure"],
                         treasures := p.treasures + 1 } g2 =
          some ({ p with inventory := p.inventory ++ ["Treasure"],
                         treasures := p.treasures + 1 }, g2)) ∧
    (cell ≠ 'T' → pick_up p g = some (p, g)) := by
  constructor
  · intro hc
    subst hc
    rcases pySet_of_pyGet hcell ' ' with ⟨row2, hset1, hget1, _⟩
    rcases pySet_of_pyGet hrow row2 with ⟨g2, hset2, hget2, _⟩
    refine ⟨g2, ?_, ?_, ?_⟩
    · unfold pick_up
      rw [hrow]
      dsimp only
      rw [hcell]
      dsimp only
      rw [if_pos rfl, hset1]
      dsimp only
      rw [hset2]
    · unfold cellAt
      rw [hget2]
      simpa using hget1
    · unfold pick_up
      dsimp only
      rw [hget2]
      dsimp only
      rw [hget1]
      dsimp only
      rw [if_neg (by decide)]
  · intro hc
    unfold pick_up
    rw [hrow]
    dsimp only
    rw [hcell]
    dsimp only
    rw [if_neg hc]

/-- C4 witness: picking up the treasure of a concrete 1x1 grid, with the
second invocation a no-op. -/
theorem c4_pick_up_spec_witness :
    ∃ g2, pick_up pT gT =
        some ({ pT with inventory := pT.inventory ++ ["Treasure"],
                        treasures := pT.treasures + 1 }, g2) ∧
      cellAt g2 pT.y pT.x = some ' ' ∧
      pick_up { pT with inventory := pT.inventory ++ ["Treasure"],
                        treasures := pT.treasures + 1 } g2 =
        some ({ pT with inventory := pT.inventory ++ ["Treasure"],
                        treasures := pT.treasures + 1 }, g2) :=
  (c4_pick_up_spec pT gT (['T']) 'T' (by decide) (by decide)).1 rfl

/-- C5: for a player standing on a vendor cell, the `t` key maps to the
`talk` action; the vendor trade (modelled from the spec, since no trade
executor exists under `src/`) refuses with treasures = 0 leaving the player
— in particular the inventory — unchanged, and with treasures = 1 (and no
prior deals) yields treasures = 0, a potion appended to the inventory, and
vendor-deal count = 1. -/
theorem c5_vendor_trade_spec (p : Player) (g : Grid) (row : List Cell)
    (hrow : pyGet g p.y = some row) (hcell : pyGet row p.x = some 'V') :
    handle_key ("t") p g = some ("talk", Payload.nil) ∧
    (p.treasures = 0 → vendor_trade p = (p, false)) ∧
    (p.treasures = 1 ∧ p.vendor_deals = 0 →
      (vendor_trade p).1.treasures = 0 ∧
      (vendor_trade p).1.inventory = p.inventory ++ ["Potion"] ∧
      (vendor_trade p).1.vendor_deals = 1 ∧ (vendor_trade p).2 = true) := by
  have hc : cellAt g p.y p.x = some 'V' := by
    unfold cellAt
    rw [hrow]
    simpa using hcell
  refine ⟨?_, ?_, ?_⟩
  · unfold handle_key
    rw [hc]
    dsimp only
    decide
  · intro h0
    unfold vendor_trade
    rw [h0]
    norm_num
  · intro h1
    unfold vendor_trade
    rw [h1.1, h1.2]
    norm_num

/-- C5 witness: both trade scenarios, and the key dispatch, on a concrete
vendor cell. -/
theorem c5_vendor_trade_spec_witness :
    vendor_trade pV0 = (pV0, false) ∧
    (vendor_trade pV1).1.treasures = 0 ∧
    (vendor_trade pV1).1.inventory = pV1.inventory ++ ["Potion"] ∧
    (vendor_trade pV1).1.vendor_deals = 1 ∧
    handle_key ("t") pV1 gV = some ("talk", Payload.nil) := by
  have h0 := c5_vendor_trade_spec pV0 gV (['V']) (by decide) (by decide)
  have h1 := c5_vendor_trade_spec pV1 gV (['V']) (by decide) (by decide)
  have h2 := h1.2.2 ⟨rfl, rfl⟩
  exact ⟨h0.2.1 rfl, h2.1, h2.2.1, h2.2.2.1, h1.1⟩

/-- C6: for a player with hit-points 10 and no treasures, the puzzle-cave
encounter (modelled from the spec, since no cave encounter exists under
`src/`) yields treasures = 1 and hit-points 10 on a correct answer, and
treasures = 0 and hit-points 10 on an incorrect one. -/
theorem c6_puzzle_cave_spec (p : Player) (hhp : p.hp = 10)
    (ht : p.treasures = 0) :
    (puzzle_cave p true).treasures = 1 ∧ (puzzle_cave p true).hp = 10 ∧
    (puzzle_cave p false).treasures = 0 ∧ (puzzle_cave p false).hp = 10 := by
  unfold puzzle_cave
  simp [ht, hhp]

/-- C6 witness: the puzzle scenario evaluated on a fresh player. -/
theorem c6_puzzle_cave_spec_witness :
    (puzzle_cave (Player.make ("cav")) true).treasures = 1 ∧
    (puzzle_cave (Player.make ("cav")) true).hp = 10 ∧
    (puzzle_cave (Player.make ("cav")) false).treasures = 0 ∧
    (puzzle_cave (Player.make ("cav")) false).hp = 10 :=
  c6_puzzle_cave_spec (Player.make ("cav")) rfl rfl

/-- C7 counterexample: the claim quantifies over every player position and
grid, but `handle_key` evaluates `grid[player.y][player.x]` before looking
at the key, so for a position outside the grid it raises `IndexError`
(embedded as `none`) instead of returning the informational action — here
with the unrecognized key "z" and a player at (0,5) on a 1x1 grid. -/
theorem c7_mapper_raises_out_of_bounds :
    ("z") ∉ recognized_keys ∧ handle_key ("z") pOut gOne = none ∧
    handle_key ("z") pOut gOne ≠ some ("info", Payload.msg ("Unknown key.")) := by
  refine ⟨by decide, by decide, by decide⟩

/-- C7 (amended): for every keystroke that is not one of the recognized
keys and every player position whose cell lookup in the grid succeeds (as
it does for every reachable, in-bounds position), `handle_key` returns the
informational action with message "Unknown key." rather than failing; on
positions outside the grid the lookup itself raises before the key is
examined. -/
theorem c7_unknown_key_info (key : String) (p : Player) (g : Grid)
    (row : List Cell) (cell : Cell) (hrow : pyGet g p.y = some row)
    (hcell : pyGet row p.x = some cell) (hk : key ∉ recognized_keys) :
    handle_key key p g = some ("info", Payload.msg ("Unknown key.")) := by
  have hc : cellAt g p.y p.x = some cell := by
    unfold cellAt
    rw [hrow]
    simpa using hcell
  simp only [recognized_keys, List.mem_cons, List.mem_singleton, not_or] at hk
  obtain ⟨h1, h2, h3, h4, h5, h6, h7, h8, h9, h10, h11, h12, h13, h14, -⟩ := hk
  unfold handle_key
  rw [hc]
  dsimp only
  rw [if_neg (not_or.2 ⟨h1, h2⟩), if_neg (not_or.2 ⟨h3, h4⟩),
    if_neg (not_or.2 ⟨h5, h6⟩), if_neg (not_or.2 ⟨h7, h8⟩), if_neg h9,
    if_neg h10, if_neg h11, if_neg h12, if_neg h13, if_neg h14]

/-- C7 witness: the unrecognized key "z" on a concrete in-bounds player. -/
theorem c7_unknown_key_info_witness :
    handle_key ("z") pZ gOne = some ("info", Payload.msg ("Unknown key.")) :=
  c7_unknown_key_info ("z") pZ gOne ([' ']) ' ' (by decide) (by decide)
    (by decide)

/-- C8: whenever the cell at the player's position is not a monster, the
hit action leaves the player record and the grid entirely unchanged.  (In
the source `hit` only prints — it mutates nothing on any cell — so the
frame property holds under the claim's hypothesis.) -/
theorem c8_hit_frame (p : Player) (g : Grid) (cell : Cell)
    (hcell : cellAt g p.y p.x = some cell) (hm : cell ≠ 'M') :
    hit p g = (p, g) := rfl

/-- C8 witness: the hit action on a concrete non-monster cell. -/
theorem c8_hit_frame_witness : hit pZ gOne = (pZ, gOne) :=
  c8_hit_frame pZ gOne ' ' (by decide) (by decide)
